import Mathlib

/-!
# Verification of the FileStore bot's access-gating and file-registry core

Shallow embedding of the repository's core logic.  The repository contains
three copy-pasted bot variants; the MongoDB variant
(`src/unnamed/part_000`, lines 429-1268) is the only one that implements the
full data model of the specification (`views`, `downloads`, `isBanned`,
`isActive`, `filesShared`, `filesAccessed`), so the redemption and upload
state machines below embed that variant; the flat-file variant
(`src/index.js`) is embedded where a claim cites behaviour specific to it
(its upload path, which performs no collision check).

External effects are modelled as explicit inputs:
* a membership oracle `GateChannel → QueryResult` stands for
  `ctx.telegram.getChatMember` (`.err` models the call throwing);
* an `HttpResult` stands for the outcome of the axios call to the AdLinkFly
  shortener (`.exn` models a thrown error: timeout, network failure,
  non-2xx status; `.ok status message shortenedUrl` models a resolved
  response, each field `none` when the corresponding JSON field is absent);
* an `Option Nat` stands for the transport send (`some msgId` on success,
  `none` when the send throws);
* a stream `Nat → String` stands for the successive draws of
  `generateCode()` (`Math.random().toString(36).substr(2, 8)`).
-/

set_option autoImplicit false

namespace FileStore

/-- A force-subscription channel, `ChannelSchema` of the MongoDB variant
(`channelId`, `username`, `title`); the flat variants store the same three
fields in `db.channels`. -/
structure GateChannel where
  channelId : String
  username : String
  title : String
  deriving DecidableEq, Repr

/-- Membership statuses returned by `getChatMember`.  The source only
distinguishes `member`, `administrator` and `creator` from everything
else; the remaining constructors cover the other Telegram statuses. -/
inductive MemberStatus where
  | member
  | administrator
  | creator
  | restricted
  | leftChat
  | kicked
  deriving DecidableEq, Repr

/-- Outcome of one `getChatMember` call: a status, or a thrown error
(`.err`), matching the `try`/`catch` around the call in
`checkSubscription`. -/
inductive QueryResult where
  | ok (s : MemberStatus)
  | err
  deriving DecidableEq, Repr

/-- `['member', 'administrator', 'creator'].includes(member.status)` —
the statuses the subscription check accepts
(`src/index.js` line 91, `src/unnamed/part_000` lines 78 and 565). -/
def satisfying (s : MemberStatus) : Bool :=
  match s with
  | .member => true
  | .administrator => true
  | .creator => true
  | _ => false

/-- The `notJoined` accumulator of `checkSubscription`
(`src/index.js` lines 87-97, `src/unnamed/part_000` lines 561-571):
for each configured channel in order, query membership; a returned
non-satisfying status pushes the channel; a thrown query (`.err`) is
caught, logged and **skipped** — the channel is not pushed. -/
def notJoined (query : GateChannel → QueryResult) : List GateChannel → List GateChannel
  | [] => []
  | ch :: rest =>
    match query ch with
    | .ok s => if satisfying s then notJoined query rest else ch :: notJoined query rest
    | .err => notJoined query rest

/-- `checkSubscription` (`src/index.js` lines 84-116,
`src/unnamed/part_000` lines 556-595): trivially true on the empty
channel set, otherwise true iff `notJoined` is empty.  (The MongoDB
variant's outer `catch` concerns the `Channel.find()` database read,
which in this embedding is the given `channels` list and cannot fail.) -/
def checkSubscription (channels : List GateChannel) (query : GateChannel → QueryResult) : Bool :=
  if channels.isEmpty then true
  else (notJoined query channels).isEmpty

/-- Outcome of the axios call to the shortener.  `.exn` = the promise
rejected (timeout, network error, non-2xx); `.ok status message url` = a
resolved response whose JSON body may or may not carry each field. -/
inductive HttpResult where
  | ok (status : Option String) (message : Option String) (shortenedUrl : Option String)
  | exn
  deriving DecidableEq, Repr

/-- `createShortLink` (`src/index.js` lines 55-81, `src/unnamed/part_000`
lines 528-553).  `domain`/`api` are `none` when the setting is unset or
empty (JS falsy, the `if (!domain || !api)` guard).  The JS function can
return `undefined` (when the response has no `error` status but also no
`shortenedUrl` field), hence the `Option String` result, `none` standing
for `undefined`. -/
def createShortLink (domain api : Option String) (url : String) (resp : HttpResult) :
    Option String :=
  match domain, api with
  | some _, some _ =>
    match resp with
    | .exn => some url
    | .ok status _ shortenedUrl =>
      if status = some "error" then some url else shortenedUrl
  | _, _ => some url

/-- `UserSchema` of the MongoDB variant (`src/unnamed/part_000` lines
447-458), restricted to the fields the claims touch.  `isVerified` is the
schema's verification flag, read by the start handler; `verified` models
the distinct key that the `verify_(.+)` callback writes
(line 787) — it is **not** the schema field. -/
structure UserRec where
  userId : Nat
  isVerified : Bool := false
  verified : Bool := false
  isBanned : Bool := false
  filesShared : Nat := 0
  filesAccessed : Nat := 0
  deriving DecidableEq, Repr

/-- `FileSchema` of the MongoDB variant (`src/unnamed/part_000` lines
460-473), restricted to the fields the claims touch; `isActive` defaults
to `true`, `views` and `downloads` to `0`, as in the schema. -/
structure FileRec where
  fileId : String
  fileType : String
  fileName : String
  caption : String
  shortCode : String
  uploadedBy : Nat
  fileSize : Nat := 0
  views : Nat := 0
  downloads : Nat := 0
  isActive : Bool := true
  deriving DecidableEq, Repr

/-- The persisted state the MongoDB variant operates on: the `users` and
`files` collections, the configured channels, and the two shortener
settings (`none` = unset/empty). -/
structure MongoState where
  users : List UserRec
  files : List FileRec
  channels : List GateChannel
  adlinkDomain : Option String := none
  adlinkApi : Option String := none
  deriving DecidableEq, Repr

/-- `File.findOne({ shortCode: args, isActive: true })`
(`src/unnamed/part_000` line 640): first record with the given code that
is active. -/
def findFile : List FileRec → String → Option FileRec
  | [], _ => none
  | f :: rest, code =>
    if f.shortCode = code ∧ f.isActive = true then some f else findFile rest code

/-- `User.findOne({ userId })`: first record with the given id. -/
def findUser : List UserRec → Nat → Option UserRec
  | [], _ => none
  | u :: rest, uid => if u.userId = uid then some u else findUser rest uid

/-- Whether a record with the given userId exists. -/
def existsUser : List UserRec → Nat → Bool
  | [], _ => false
  | u :: rest, uid => if u.userId = uid then true else existsUser rest uid

/-- `File.findOne({ shortCode })` of the upload loop
(`src/unnamed/part_000` line 863): existence among **all** records,
active or not (no `isActive` filter). -/
def existsCode : List FileRec → String → Bool
  | [], _ => false
  | f :: rest, code => if f.shortCode = code then true else existsCode rest code

/-- `doc.save()` after mutating the document that
`File.findOne({ shortCode, isActive: true })` returned: replace exactly
the first active record with the given code. -/
def saveFoundFile : List FileRec → String → (FileRec → FileRec) → List FileRec
  | [], _, _ => []
  | f :: rest, code, g =>
    if f.shortCode = code ∧ f.isActive = true then g f :: rest
    else f :: saveFoundFile rest code g

/-- `doc.save()` after mutating the document that
`User.findOne({ userId })` returned: replace exactly the first record
with the given id. -/
def saveFoundUser : List UserRec → Nat → (UserRec → UserRec) → List UserRec
  | [], _, _ => []
  | u :: rest, uid, g =>
    if u.userId = uid then g u :: rest else u :: saveFoundUser rest uid g

/-- `updateUserActivity` (`src/unnamed/part_000` lines 612-625):
`User.findOneAndUpdate({ userId }, {..., lastActive}, { upsert: true })`.
On the modelled fields this leaves an existing record unchanged and
inserts a fresh default record otherwise. -/
def upsertUser (users : List UserRec) (uid : Nat) : List UserRec :=
  if existsUser users uid then users else users ++ [{ userId := uid }]

/-- The deep link back to a stored file:
`https://t.me/${config.botUsername}?start=${code}`. -/
def deepLink (botUsername code : String) : String :=
  "https://t.me/" ++ botUsername ++ "?start=" ++ code

/-- Terminal outcome of one redemption request (the spec's Access
Orchestrator states).  `pendingVerification` carries the challenge link
shown to the user (`none` = the JS value was `undefined`);
`delivered` carries the message id of the sent file. -/
inductive RedeemOutcome where
  | notFound
  | blocked
  | pendingSubscription (missing : List GateChannel)
  | pendingVerification (link : Option String)
  | delivered (msgId : Nat)
  | deliveryFailed
  deriving DecidableEq, Repr

/-- The body of the MongoDB variant's `bot.start` handler after the
initial `updateUserActivity` upsert (`src/unnamed/part_000` lines
638-734), for a request carrying a code:

1. `File.findOne({ shortCode, isActive: true })`; none → "File not
   found or has been removed" (lines 640-643);
2. `User.findOne({ userId })`; a found banned user → "You are banned"
   (lines 646-649);
3. `checkSubscription`; failure → the join prompt listing `notJoined`
   (line 652);
4. a missing or unverified user → `views += 1`, `createShortLink` on the
   deep link, verification prompt (lines 655-680);
5. otherwise send the file: on success `downloads += 1` and
   `filesAccessed += 1` (lines 682-730), on a thrown send the `catch`
   replies "Error sending file" and mutates nothing (lines 731-734).

The source runs `checkSubscription` once, between the ban check and the
verification check, whether or not the user record was found; the two
branches of the `findUser` match below mirror that. -/
def redeemAfter (st : MongoState) (bot : String) (uid : Nat) (code : String)
    (query : GateChannel → QueryResult) (resp : HttpResult) (send : Option Nat) :
    RedeemOutcome × MongoState :=
  match findFile st.files code with
  | none => (.notFound, st)
  | some _ =>
    match findUser st.users uid with
    | none =>
      if checkSubscription st.channels query = false then
        (.pendingSubscription (notJoined query st.channels), st)
      else
        (.pendingVerification (createShortLink st.adlinkDomain st.adlinkApi (deepLink bot code) resp),
         { st with files := saveFoundFile st.files code (fun f => { f with views := f.views + 1 }) })
    | some user =>
      if user.isBanned = true then (.blocked, st)
      else if checkSubscription st.channels query = false then
        (.pendingSubscription (notJoined query st.channels), st)
      else if user.isVerified = false then
        (.pendingVerification (createShortLink st.adlinkDomain st.adlinkApi (deepLink bot code) resp),
         { st with files := saveFoundFile st.files code (fun f => { f with views := f.views + 1 }) })
      else
        match send with
        | none => (.deliveryFailed, st)
        | some msgId =>
          (.delivered msgId,
           { st with
             files := saveFoundFile st.files code (fun f => { f with downloads := f.downloads + 1 }),
             users := saveFoundUser st.users uid (fun u => { u with filesAccessed := u.filesAccessed + 1 }) })

/-- One full redemption: the MongoDB variant's `bot.start` handler for
`/start <code>` (`src/unnamed/part_000` lines 628-749).  The handler
first upserts the user via `updateUserActivity` (line 633), then runs
the lookup / ban / subscription / verification / delivery sequence. -/
def redeemMongo (st : MongoState) (bot : String) (uid : Nat) (code : String)
    (query : GateChannel → QueryResult) (resp : HttpResult) (send : Option Nat) :
    RedeemOutcome × MongoState :=
  redeemAfter { st with users := upsertUser st.users uid } bot uid code query resp send

/-- The code-generation retry loop of the MongoDB variant's upload
handler (`src/unnamed/part_000` lines 858-865):
`while (!isUnique) { shortCode = generateCode(); exists = await
File.findOne({ shortCode }); if (!exists) isUnique = true; }`.
`draws i` is the `i`-th value produced by `generateCode()`; the source
loop has no bound, so the embedding is fuel-indexed and every theorem
about it is quantified over the fuel. -/
def genLoop (files : List FileRec) (draws : Nat → String) : Nat → Nat → Option String
  | _, 0 => none
  | i, fuel + 1 =>
    if existsCode files (draws i) = true then genLoop files draws (i + 1) fuel
    else some (draws i)

/-- `User.findOneAndUpdate({ userId }, { $inc: { filesShared: 1 } },
{ upsert: true })` of the upload handler (`src/unnamed/part_000` lines
880-884). -/
def incFilesShared (users : List UserRec) (uid : Nat) : List UserRec :=
  if existsUser users uid then
    saveFoundUser users uid (fun u => { u with filesShared := u.filesShared + 1 })
  else users ++ [{ userId := uid, filesShared := 1 }]

/-- What the upload handler replies to the uploader: the fresh code and
the share link built from it (`src/unnamed/part_000` lines 911-929). -/
structure UploadReply where
  shortCode : String
  shareLink : String
  deriving DecidableEq, Repr

/-- The MongoDB variant's file upload handler (`src/unnamed/part_000`
lines 829-934): draw a fresh code via the retry loop, persist the new
`File` document (schema defaults: `views = 0`, `downloads = 0`,
`isActive = true`), `$inc` the uploader's `filesShared`, and reply with
the share link.  The handler performs no ban, subscription or
verification check on the uploader.  `none` = the fuel ran out before a
fresh draw (the source loop would still be running). -/
def uploadMongo (st : MongoState) (bot : String) (uid : Nat)
    (fileId fileType fileName caption : String) (fileSize : Nat)
    (draws : Nat → String) (fuel : Nat) : Option (UploadReply × MongoState) :=
  match genLoop st.files draws 0 fuel with
  | none => none
  | some code =>
    some ({ shortCode := code, shareLink := deepLink bot code },
      { st with
        files := st.files ++ [{ fileId := fileId, fileType := fileType, fileName := fileName,
                                caption := caption, shortCode := code, uploadedBy := uid,
                                fileSize := fileSize }],
        users := incFilesShared st.users uid })

/-- A record of the flat-file variant's `db.files` map
(`src/index.js` lines 308-314). -/
structure FlatFile where
  fileId : String
  fileType : String
  caption : String
  uploadedBy : Nat
  deriving DecidableEq, Repr

/-- JS object assignment `db.files[code] = record`: overwrite the entry
if the key is present, append it otherwise. -/
def flatInsert (files : List (String × FlatFile)) (code : String) (record : FlatFile) :
    List (String × FlatFile) :=
  if files.any (fun p => p.1 = code) then
    files.map (fun p => if p.1 = code then (code, record) else p)
  else files ++ [(code, record)]

/-- The flat-file variant's upload handler (`src/index.js` lines
281-348): `const shortCode = generateCode(); db.files[shortCode] = ...`.
`draw` is the single value `generateCode()` produced — the handler never
consults the store before using it and never retries. -/
def uploadFlat (files : List (String × FlatFile)) (draw : String) (record : FlatFile) :
    String × List (String × FlatFile) :=
  (draw, flatInsert files draw record)

/-- The MongoDB variant's `bot.action(/verify_(.+)/)` callback
(`src/unnamed/part_000` lines 779-816) — the Verification Gate's
`consumeChallenge`:
`User.findOneAndUpdate({ userId }, { verified: true, verifiedAt, ... },
{ upsert: true })`.  The update writes the key `verified`, which is not
the schema's `isVerified` field; the embedding records it in the
separate `verified` field and leaves `isVerified` untouched, exactly as
the source does. -/
def consumeChallengeMongo (users : List UserRec) (uid : Nat) : List UserRec :=
  if existsUser users uid then
    saveFoundUser users uid (fun u => { u with verified := true })
  else users ++ [{ userId := uid, verified := true }]

/-- The spec's notion of passing the subscription gate, modelled from the
spec's words ("membership in every configured GateChannel"): every
configured channel's membership query returned one of the satisfying
statuses.  This is the predicate the claims compare the implementation
against; an erroring query does not establish membership. -/
def specSubscriptionHolds (query : GateChannel → QueryResult) (channels : List GateChannel) :
    Bool :=
  channels.all fun ch =>
    match query ch with
    | .ok s => satisfying s
    | .err => false

/-! ## Helper lemmas -/

theorem existsUser_of_findUser {users : List UserRec} {uid : Nat} {u : UserRec}
    (h : findUser users uid = some u) : existsUser users uid = true := by
  induction users with
  | nil => simp [findUser] at h
  | cons v rest ih =>
    by_cases hv : v.userId = uid
    · simp [existsUser, hv]
    · simp only [findUser, if_neg hv] at h
      simp [existsUser, hv, ih h]

theorem upsertUser_of_exists {users : List UserRec} {uid : Nat}
    (h : existsUser users uid = true) : upsertUser users uid = users := by
  simp [upsertUser, h]

theorem redeemMongo_eq_redeemAfter {st : MongoState} {uid : Nat}
    (bot code : String) (query : GateChannel → QueryResult) (resp : HttpResult)
    (send : Option Nat) (h : existsUser st.users uid = true) :
    redeemMongo st bot uid code query resp send = redeemAfter st bot uid code query resp send := by
  unfold redeemMongo
  rw [upsertUser_of_exists h]

theorem findFile_eq_none {files : List FileRec} {code : String}
    (h : ∀ f ∈ files, f.shortCode = code → f.isActive = false) :
    findFile files code = none := by
  induction files with
  | nil => rfl
  | cons f rest ih =>
    have hf := h f (List.mem_cons_self f rest)
    have hrest : ∀ g ∈ rest, g.shortCode = code → g.isActive = false :=
      fun g hg => h g (List.mem_cons_of_mem f hg)
    by_cases hc : f.shortCode = code
    · simp [findFile, hc, hf hc, ih hrest]
    · simp [findFile, hc, ih hrest]

theorem existsCode_eq_false {files : List FileRec} {code : String}
    (h : existsCode files code = false) : ∀ f ∈ files, f.shortCode ≠ code := by
  induction files with
  | nil => intro f hf; simp at hf
  | cons g rest ih =>
    intro f hf
    by_cases hg : g.shortCode = code
    · simp [existsCode, hg] at h
    · simp only [existsCode, if_neg hg] at h
      rcases List.mem_cons.mp hf with rfl | hmem
      · exact hg
      · exact ih h f hmem

theorem genLoop_fresh {files : List FileRec} {draws : Nat → String} :
    ∀ (fuel i : Nat) (code : String), genLoop files draws i fuel = some code →
      ∀ f ∈ files, f.shortCode ≠ code := by
  intro fuel
  induction fuel with
  | zero => intro i code h; simp [genLoop] at h
  | succ n ih =>
    intro i code h
    by_cases he : existsCode files (draws i) = true
    · simp only [genLoop, if_pos he] at h
      exact ih (i + 1) code h
    · simp only [genLoop, if_neg he] at h
      cases h
      exact existsCode_eq_false (Bool.eq_false_iff.mpr he)

theorem findFile_append_of_none {files : List FileRec} {code : String}
    (rest : List FileRec) (h : findFile files code = none) :
    findFile (files ++ rest) code = findFile rest code := by
  induction files with
  | nil => rfl
  | cons f fs ih =>
    by_cases hc : f.shortCode = code ∧ f.isActive = true
    · simp [findFile, hc] at h
    · simp only [findFile, if_neg hc] at h
      simp only [List.cons_append, findFile, if_neg hc]
      exact ih h

theorem findFile_saveFoundFile {files : List FileRec} {code : String} {f : FileRec}
    (g : FileRec → FileRec) (h : findFile files code = some f)
    (hcode : (g f).shortCode = f.shortCode) (hact : (g f).isActive = f.isActive) :
    findFile (saveFoundFile files code g) code = some (g f) := by
  induction files with
  | nil => simp [findFile] at h
  | cons r rest ih =>
    by_cases hr : r.shortCode = code ∧ r.isActive = true
    · simp only [findFile, if_pos hr] at h
      cases h
      have : (g f).shortCode = code ∧ (g f).isActive = true := by
        constructor
        · rw [hcode]; exact hr.1
        · rw [hact]; exact hr.2
      simp [saveFoundFile, hr, findFile, this]
    · simp only [findFile, if_neg hr] at h
      simp only [saveFoundFile, if_neg hr, findFile, if_neg hr]
      exact ih h

theorem bool_eq_true_of_ne_false {b : Bool} (h : ¬ b = false) : b = true := by
  cases b
  · exact absurd rfl h
  · rfl

theorem bool_eq_false_of_ne_true {b : Bool} (h : ¬ b = true) : b = false := by
  cases b
  · rfl
  · exact absurd rfl h

theorem findUser_saveFoundUser {users : List UserRec} {uid : Nat} {u : UserRec}
    (g : UserRec → UserRec) (h : findUser users uid = some u)
    (hid : (g u).userId = u.userId) :
    findUser (saveFoundUser users uid g) uid = some (g u) := by
  induction users with
  | nil => simp [findUser] at h
  | cons v rest ih =>
    by_cases hv : v.userId = uid
    · simp only [findUser, if_pos hv] at h
      cases h
      have : (g u).userId = uid := by rw [hid]; exact hv
      simp [saveFoundUser, hv, findUser, this]
    · simp only [findUser, if_neg hv] at h
      simp only [saveFoundUser, if_neg hv, findUser, if_neg hv]
      exact ih h

/-! ## Claim C3 -/

/-- C3, counterexample.  The claim states that a failed/erroring
membership query is classified as missing, so that a query failure for a
channel blocks access.  In the code the `catch` around `getChatMember`
only logs: with a single configured channel whose query errors, the
channel is absent from `notJoined` and `checkSubscription` passes — the
failure does not block access. -/
theorem c3_error_not_missing :
    notJoined (fun _ => QueryResult.err)
        [{ channelId := "-100", username := "@ch", title := "Ch" }] = []
    ∧ checkSubscription [{ channelId := "-100", username := "@ch", title := "Ch" }]
        (fun _ => QueryResult.err) = true :=
  ⟨rfl, rfl⟩

/-- C3, amended.  The subscription check classifies the returned statuses
`member`, `administrator` and `creator` as satisfying and every other
*returned* status as missing, preserving the configured channel order;
but a failed/erroring membership query is skipped — treated as
satisfying — so a query failure does not place the channel in the
missing set and does not block access. -/
theorem c3_status_classification (query : GateChannel → QueryResult)
    (channels : List GateChannel) :
    notJoined query channels =
      channels.filter (fun ch =>
        match query ch with
        | .ok s => !satisfying s
        | .err => false)
    ∧ ∀ s : MemberStatus,
        (satisfying s = true ↔ s = .member ∨ s = .administrator ∨ s = .creator) := by
  constructor
  · induction channels with
    | nil => rfl
    | cons ch rest ih =>
      simp only [notJoined, List.filter_cons]
      cases hq : query ch with
      | ok s => cases hs : satisfying s <;> simp [hs, ih]
      | err => simp [ih]
  · intro s
    cases s <;> simp [satisfying]

/-! ## Claim C9 -/

/-- C9, counterexample.  The claim states that on *any* shortener
failure, including a malformed response, the original unshortened URL is
returned.  A resolved response that carries no `status: 'error'` field
and no `shortenedUrl` field (e.g. an HTML body on HTTP 200) makes
`createShortLink` return `response.data.shortenedUrl`, i.e. `undefined`
(`none`), not the original URL. -/
theorem c9_malformed_returns_undefined :
    createShortLink (some "https://short.example") (some "apikey")
        "https://t.me/bot?start=abc12345" (HttpResult.ok none none none) = none
    ∧ (none : Option String) ≠ some "https://t.me/bot?start=abc12345" := by
  exact ⟨rfl, by simp⟩

/-- C9, amended.  `createShortLink` returns the original, unshortened
URL whenever the shortener is unconfigured (domain or api unset/empty),
the HTTP call throws (timeout, network error, non-2xx), or the response
reports `status: 'error'`; a resolved non-error response, however, is
trusted and its `shortenedUrl` field is returned as-is, which is
`undefined` when the field is absent. -/
theorem c9_raw_link_fallback (domain api : Option String) (url : String) (resp : HttpResult)
    (h : domain = none ∨ api = none ∨ resp = HttpResult.exn ∨
         ∃ m u, resp = HttpResult.ok (some "error") m u) :
    createShortLink domain api url resp = some url := by
  cases domain with
  | none => rfl
  | some d =>
    cases api with
    | none => rfl
    | some a =>
      rcases h with h | h | h | ⟨m, u, h⟩
      · exact absurd h (by simp)
      · exact absurd h (by simp)
      · rw [h]; rfl
      · rw [h]; simp [createShortLink]

/-- C9, witness: the shortener call timing out (a thrown axios error)
makes `createShortLink` return the original URL. -/
theorem c9_raw_link_fallback_witness :
    createShortLink (some "https://short.example") (some "apikey")
        "https://t.me/bot?start=abc12345" HttpResult.exn
      = some "https://t.me/bot?start=abc12345" :=
  c9_raw_link_fallback (some "https://short.example") (some "apikey")
    "https://t.me/bot?start=abc12345" HttpResult.exn (Or.inr (Or.inr (Or.inl rfl)))

/-! ## Claim C2 -/

/-- C2, counterexample.  The claim states that for every valid upload the
returned `shortCode` was never previously issued, the generator checking
the store and retrying on collision before persisting.  The flat-file
variant's upload handler (`src/index.js` lines 306-315) uses the single
draw of `generateCode()` without any existence check: when the draw
collides with the already-issued code `"abc12345"`, the handler returns
that same code and silently overwrites the existing record. -/
theorem c2_flat_reissues_code :
    uploadFlat [("abc12345", { fileId := "F0", fileType := "document",
                               caption := "old", uploadedBy := 1 })]
        "abc12345"
        { fileId := "F1", fileType := "video", caption := "new", uploadedBy := 2 }
      = ("abc12345",
         [("abc12345", { fileId := "F1", fileType := "video",
                         caption := "new", uploadedBy := 2 })]) := by
  rfl

/-- C2, amended.  In the MongoDB variant the upload handler draws a code,
checks existence among **all** `FileRecord`s (the lookup has no
`isActive` filter, so retired/inactive codes count) and retries on
collision; whenever the loop terminates, the returned `shortCode`
differs from every previously issued code and the new record is
appended.  The flat-file variant (`src/index.js`) performs no existence
check at all: a colliding draw is returned as-is and silently overwrites
the previous record. -/
theorem c2_mongo_fresh_code (st : MongoState) (bot : String) (uid : Nat)
    (fid ft fn cap : String) (sz : Nat) (draws : Nat → String) (fuel : Nat)
    (reply : UploadReply) (st' : MongoState)
    (h : uploadMongo st bot uid fid ft fn cap sz draws fuel = some (reply, st')) :
    (∀ f ∈ st.files, f.shortCode ≠ reply.shortCode)
    ∧ st'.files = st.files ++
        [{ fileId := fid, fileType := ft, fileName := fn, caption := cap,
           shortCode := reply.shortCode, uploadedBy := uid, fileSize := sz }] := by
  unfold uploadMongo at h
  cases hg : genLoop st.files draws 0 fuel with
  | none => rw [hg] at h; exact absurd h (by simp)
  | some code =>
    rw [hg] at h
    simp only [Option.some.injEq, Prod.mk.injEq] at h
    obtain ⟨hr, hs⟩ := h
    subst hr
    subst hs
    exact ⟨genLoop_fresh fuel 0 code hg, rfl⟩

/-- C2, witness: a concrete upload into a store already holding code
`abc12345`, whose first draw `zzz11111` is fresh: the stored record's
code differs from the returned one. -/
theorem c2_mongo_fresh_code_witness :
    ({ fileId := "F0", fileType := "document", fileName := "n0",
       caption := "c0", shortCode := "abc12345", uploadedBy := 1 } : FileRec).shortCode
      ≠ "zzz11111" :=
  (c2_mongo_fresh_code
    { users := [], files := [{ fileId := "F0", fileType := "document", fileName := "n0",
                               caption := "c0", shortCode := "abc12345", uploadedBy := 1 }],
      channels := [] }
    "bot" 7 "F1" "video" "n1" "c1" 5 (fun _ => "zzz11111") 1 _ _ rfl).1
    { fileId := "F0", fileType := "document", fileName := "n0",
      caption := "c0", shortCode := "abc12345", uploadedBy := 1 }
    (List.mem_singleton_self _)

/-! ## Claim C5 -/

/-- C5, confirmed.  When every record carrying the requested code is
inactive (which covers the code being unknown: no record carries it),
the lookup `File.findOne({ shortCode, isActive: true })` finds nothing
and the redemption terminates with `NOT_FOUND` — for every user list,
membership oracle, shortener outcome and transport outcome, i.e.
regardless of the requester's ban, subscription or verification state —
and no `FileRecord` is touched. -/
theorem c5_inactive_code_not_found (st : MongoState) (bot : String) (uid : Nat)
    (code : String) (query : GateChannel → QueryResult) (resp : HttpResult)
    (send : Option Nat)
    (h : ∀ f ∈ st.files, f.shortCode = code → f.isActive = false) :
    (redeemMongo st bot uid code query resp send).1 = RedeemOutcome.notFound
    ∧ (redeemMongo st bot uid code query resp send).2.files = st.files := by
  have hn : findFile st.files code = none := findFile_eq_none h
  unfold redeemMongo redeemAfter
  dsimp only
  rw [hn]
  exact ⟨rfl, rfl⟩

/-- C5, witness: a store holding one soft-deleted record under the
requested code, queried by a verified, unbanned user whose membership
queries all succeed. -/
theorem c5_inactive_code_not_found_witness :
    (redeemMongo
        { users := [{ userId := 7, isVerified := true }],
          files := [{ fileId := "F0", fileType := "document", fileName := "n0",
                      caption := "c0", shortCode := "abc12345", uploadedBy := 1,
                      isActive := false }],
          channels := [] }
        "bot" 7 "abc12345" (fun _ => QueryResult.ok MemberStatus.member)
        HttpResult.exn (some 1)).1 = RedeemOutcome.notFound
    ∧ (redeemMongo
        { users := [{ userId := 7, isVerified := true }],
          files := [{ fileId := "F0", fileType := "document", fileName := "n0",
                      caption := "c0", shortCode := "abc12345", uploadedBy := 1,
                      isActive := false }],
          channels := [] }
        "bot" 7 "abc12345" (fun _ => QueryResult.ok MemberStatus.member)
        HttpResult.exn (some 1)).2.files
      = [{ fileId := "F0", fileType := "document", fileName := "n0",
           caption := "c0", shortCode := "abc12345", uploadedBy := 1,
           isActive := false }] :=
  c5_inactive_code_not_found
    { users := [{ userId := 7, isVerified := true }],
      files := [{ fileId := "F0", fileType := "document", fileName := "n0",
                  caption := "c0", shortCode := "abc12345", uploadedBy := 1,
                  isActive := false }],
      channels := [] }
    "bot" 7 "abc12345" (fun _ => QueryResult.ok MemberStatus.member)
    HttpResult.exn (some 1) (by decide)

/-! ## Claim C6 -/

/-- C6, confirmed.  When the code resolves to an active record and the
requesting user's record has `isBanned = true`, the redemption
terminates with `BLOCKED` and the state is returned unchanged — for
every membership oracle, shortener outcome and transport outcome, so no
subscription query influences the result, no verification is issued, no
delivery happens and no counter moves. -/
theorem c6_banned_blocked (st : MongoState) (bot : String) (uid : Nat) (code : String)
    (query : GateChannel → QueryResult) (resp : HttpResult) (send : Option Nat)
    (f : FileRec) (u : UserRec)
    (hf : findFile st.files code = some f)
    (hu : findUser st.users uid = some u)
    (hb : u.isBanned = true) :
    (redeemMongo st bot uid code query resp send).1 = RedeemOutcome.blocked
    ∧ (redeemMongo st bot uid code query resp send).2 = st := by
  rw [redeemMongo_eq_redeemAfter bot code query resp send (existsUser_of_findUser hu)]
  unfold redeemAfter
  rw [hf, hu]
  dsimp only
  rw [if_pos hb]
  exact ⟨rfl, rfl⟩

/-- C6, witness: a banned user redeeming an active code, with an erroring
membership oracle and a succeeding transport. -/
theorem c6_banned_blocked_witness :
    (redeemMongo
        { users := [{ userId := 7, isVerified := true, isBanned := true }],
          files := [{ fileId := "F0", fileType := "document", fileName := "n0",
                      caption := "c0", shortCode := "abc12345", uploadedBy := 1 }],
          channels := [{ channelId := "-100", username := "@ch", title := "Ch" }] }
        "bot" 7 "abc12345" (fun _ => QueryResult.err) HttpResult.exn (some 1)).1
      = RedeemOutcome.blocked
    ∧ (redeemMongo
        { users := [{ userId := 7, isVerified := true, isBanned := true }],
          files := [{ fileId := "F0", fileType := "document", fileName := "n0",
                      caption := "c0", shortCode := "abc12345", uploadedBy := 1 }],
          channels := [{ channelId := "-100", username := "@ch", title := "Ch" }] }
        "bot" 7 "abc12345" (fun _ => QueryResult.err) HttpResult.exn (some 1)).2
      = { users := [{ userId := 7, isVerified := true, isBanned := true }],
          files := [{ fileId := "F0", fileType := "document", fileName := "n0",
                      caption := "c0", shortCode := "abc12345", uploadedBy := 1 }],
          channels := [{ channelId := "-100", username := "@ch", title := "Ch" }] } :=
  c6_banned_blocked
    { users := [{ userId := 7, isVerified := true, isBanned := true }],
      files := [{ fileId := "F0", fileType := "document", fileName := "n0",
                  caption := "c0", shortCode := "abc12345", uploadedBy := 1 }],
      channels := [{ channelId := "-100", username := "@ch", title := "Ch" }] }
    "bot" 7 "abc12345" (fun _ => QueryResult.err) HttpResult.exn (some 1)
    { fileId := "F0", fileType := "document", fileName := "n0",
      caption := "c0", shortCode := "abc12345", uploadedBy := 1 }
    { userId := 7, isVerified := true, isBanned := true }
    rfl rfl rfl

/-! ## Claim C4 -/

/-- C4, code bug.  The claim (and the spec, and the bot's own
"verification successful, you can now access all files" reply) says a
user who has completed the verify callback once is persistently
verified.  In the MongoDB variant the callback's
`User.findOneAndUpdate({ userId }, { verified: true, ... })` writes the
key `verified`, which is not the schema field `isVerified` that the
start handler reads: after a fresh user completes the callback, the
stored record's `isVerified` is still `false`, and redeeming an active
code still terminates with the verification prompt instead of the
file. -/
theorem c4_verify_callback_wrong_field :
    findUser (consumeChallengeMongo [] 7) 7 = some { userId := 7, verified := true }
    ∧ ({ userId := 7, verified := true } : UserRec).isVerified = false
    ∧ (redeemMongo
        { users := consumeChallengeMongo [] 7,
          files := [{ fileId := "F0", fileType := "document", fileName := "n0",
                      caption := "c0", shortCode := "abc12345", uploadedBy := 1 }],
          channels := [] }
        "bot" 7 "abc12345" (fun _ => QueryResult.ok MemberStatus.member)
        HttpResult.exn (some 1)).1
      = RedeemOutcome.pendingVerification (some (deepLink "bot" "abc12345")) := by
  refine ⟨rfl, rfl, ?_⟩
  rfl

/-! ## Claim C7 -/

/-- C7, confirmed (MongoDB variant, the one implementing the `views`
counter).  When the code resolves to an active record and the requesting
user is found, not banned, passes the subscription check and is not
verified, the redemption increments the found record's `views` by
exactly one (its other fields, in particular `downloads`, unchanged),
calls `createShortLink` on the deep link (the issued challenge) and
terminates with `PENDING_VERIFICATION` carrying that link; the users
collection is untouched and no delivery happens. -/
theorem c7_unverified_pending_verification (st : MongoState) (bot : String) (uid : Nat)
    (code : String) (query : GateChannel → QueryResult) (resp : HttpResult)
    (send : Option Nat) (f : FileRec) (u : UserRec)
    (hf : findFile st.files code = some f)
    (hu : findUser st.users uid = some u)
    (hb : u.isBanned = false)
    (hv : u.isVerified = false)
    (hs : checkSubscription st.channels query = true) :
    (redeemMongo st bot uid code query resp send).1
      = RedeemOutcome.pendingVerification
          (createShortLink st.adlinkDomain st.adlinkApi (deepLink bot code) resp)
    ∧ findFile (redeemMongo st bot uid code query resp send).2.files code
        = some { f with views := f.views + 1 }
    ∧ (redeemMongo st bot uid code query resp send).2.users = st.users := by
  have e : redeemAfter st bot uid code query resp send
      = (RedeemOutcome.pendingVerification
           (createShortLink st.adlinkDomain st.adlinkApi (deepLink bot code) resp),
         { st with files := saveFoundFile st.files code
                              (fun g => { g with views := g.views + 1 }) }) := by
    unfold redeemAfter
    rw [hf, hu]
    dsimp only
    rw [hb, hv, hs]
    simp
  rw [redeemMongo_eq_redeemAfter bot code query resp send (existsUser_of_findUser hu), e]
  exact ⟨rfl, findFile_saveFoundFile _ hf rfl rfl, rfl⟩

/-- C7, witness: an unverified, unbanned user, one configured channel
whose query returns `member`, redeeming an active code with the
shortener unconfigured. -/
theorem c7_unverified_pending_verification_witness :
    (redeemMongo
        { users := [{ userId := 7 }],
          files := [{ fileId := "F0", fileType := "document", fileName := "n0",
                      caption := "c0", shortCode := "abc12345", uploadedBy := 1,
                      views := 4 }],
          channels := [{ channelId := "-100", username := "@ch", title := "Ch" }] }
        "bot" 7 "abc12345" (fun _ => QueryResult.ok MemberStatus.member)
        HttpResult.exn (some 1)).1
      = RedeemOutcome.pendingVerification
          (createShortLink none none (deepLink "bot" "abc12345") HttpResult.exn)
    ∧ findFile (redeemMongo
        { users := [{ userId := 7 }],
          files := [{ fileId := "F0", fileType := "document", fileName := "n0",
                      caption := "c0", shortCode := "abc12345", uploadedBy := 1,
                      views := 4 }],
          channels := [{ channelId := "-100", username := "@ch", title := "Ch" }] }
        "bot" 7 "abc12345" (fun _ => QueryResult.ok MemberStatus.member)
        HttpResult.exn (some 1)).2.files "abc12345"
        = some { fileId := "F0", fileType := "document", fileName := "n0",
                 caption := "c0", shortCode := "abc12345", uploadedBy := 1,
                 views := 5 }
    ∧ (redeemMongo
        { users := [{ userId := 7 }],
          files := [{ fileId := "F0", fileType := "document", fileName := "n0",
                      caption := "c0", shortCode := "abc12345", uploadedBy := 1,
                      views := 4 }],
          channels := [{ channelId := "-100", username := "@ch", title := "Ch" }] }
        "bot" 7 "abc12345" (fun _ => QueryResult.ok MemberStatus.member)
        HttpResult.exn (some 1)).2.users = [{ userId := 7 }] :=
  c7_unverified_pending_verification
    { users := [{ userId := 7 }],
      files := [{ fileId := "F0", fileType := "document", fileName := "n0",
                  caption := "c0", shortCode := "abc12345", uploadedBy := 1,
                  views := 4 }],
      channels := [{ channelId := "-100", username := "@ch", title := "Ch" }] }
    "bot" 7 "abc12345" (fun _ => QueryResult.ok MemberStatus.member)
    HttpResult.exn (some 1)
    { fileId := "F0", fileType := "document", fileName := "n0",
      caption := "c0", shortCode := "abc12345", uploadedBy := 1, views := 4 }
    { userId := 7 }
    rfl rfl rfl rfl rfl

/-! ## Claim C8 -/

/-- C8, confirmed.  For a redemption that reaches the delivery step
(active code, found user, not banned, subscription passed, verified):
if the transport send throws, the outcome is `DELIVERY_FAILED` (the
generic retry message of the source's `catch`) and the state is returned
entirely unchanged — neither the record's `downloads` nor the user's
`filesAccessed` moves; if the send succeeds with message id `m`, the
outcome is `delivered m` and exactly those two counters are incremented
by one. -/
theorem c8_send_failure_no_mutation (st : MongoState) (bot : String) (uid : Nat)
    (code : String) (query : GateChannel → QueryResult) (resp : HttpResult)
    (f : FileRec) (u : UserRec)
    (hf : findFile st.files code = some f)
    (hu : findUser st.users uid = some u)
    (hb : u.isBanned = false)
    (hv : u.isVerified = true)
    (hs : checkSubscription st.channels query = true) :
    ((redeemMongo st bot uid code query resp none).1 = RedeemOutcome.deliveryFailed
     ∧ (redeemMongo st bot uid code query resp none).2 = st)
    ∧ ∀ m : Nat,
        ((redeemMongo st bot uid code query resp (some m)).1 = RedeemOutcome.delivered m
         ∧ findFile (redeemMongo st bot uid code query resp (some m)).2.files code
             = some { f with downloads := f.downloads + 1 }
         ∧ findUser (redeemMongo st bot uid code query resp (some m)).2.users uid
             = some { u with filesAccessed := u.filesAccessed + 1 }) := by
  have hex := existsUser_of_findUser hu
  constructor
  · have e : redeemAfter st bot uid code query resp none
        = (RedeemOutcome.deliveryFailed, st) := by
      unfold redeemAfter
      rw [hf, hu]
      dsimp only
      rw [hb, hv, hs]
      simp
    rw [redeemMongo_eq_redeemAfter bot code query resp none hex, e]
    exact ⟨rfl, rfl⟩
  · intro m
    have e : redeemAfter st bot uid code query resp (some m)
        = (RedeemOutcome.delivered m,
           { st with
             files := saveFoundFile st.files code
                        (fun g => { g with downloads := g.downloads + 1 }),
             users := saveFoundUser st.users uid
                        (fun w => { w with filesAccessed := w.filesAccessed + 1 }) }) := by
      unfold redeemAfter
      rw [hf, hu]
      dsimp only
      rw [hb, hv, hs]
      simp
    rw [redeemMongo_eq_redeemAfter bot code query resp (some m) hex, e]
    exact ⟨rfl, findFile_saveFoundFile _ hf rfl rfl, findUser_saveFoundUser _ hu rfl⟩

/-- C8, witness: a verified, unbanned, subscribed user redeeming an
active code whose transport send throws (and, for the success conjunct,
succeeds with message id 9). -/
theorem c8_send_failure_no_mutation_witness :
    ((redeemMongo
        { users := [{ userId := 7, isVerified := true, filesAccessed := 2 }],
          files := [{ fileId := "F0", fileType := "document", fileName := "n0",
                      caption := "c0", shortCode := "abc12345", uploadedBy := 1,
                      downloads := 3 }],
          channels := [{ channelId := "-100", username := "@ch", title := "Ch" }] }
        "bot" 7 "abc12345" (fun _ => QueryResult.ok MemberStatus.creator)
        HttpResult.exn none).1 = RedeemOutcome.deliveryFailed
     ∧ (redeemMongo
        { users := [{ userId := 7, isVerified := true, filesAccessed := 2 }],
          files := [{ fileId := "F0", fileType := "document", fileName := "n0",
                      caption := "c0", shortCode := "abc12345", uploadedBy := 1,
                      downloads := 3 }],
          channels := [{ channelId := "-100", username := "@ch", title := "Ch" }] }
        "bot" 7 "abc12345" (fun _ => QueryResult.ok MemberStatus.creator)
        HttpResult.exn none).2
       = { users := [{ userId := 7, isVerified := true, filesAccessed := 2 }],
           files := [{ fileId := "F0", fileType := "document", fileName := "n0",
                       caption := "c0", shortCode := "abc12345", uploadedBy := 1,
                       downloads := 3 }],
           channels := [{ channelId := "-100", username := "@ch", title := "Ch" }] })
    ∧ ∀ m : Nat,
        ((redeemMongo
            { users := [{ userId := 7, isVerified := true, filesAccessed := 2 }],
              files := [{ fileId := "F0", fileType := "document", fileName := "n0",
                          caption := "c0", shortCode := "abc12345", uploadedBy := 1,
                          downloads := 3 }],
              channels := [{ channelId := "-100", username := "@ch", title := "Ch" }] }
            "bot" 7 "abc12345" (fun _ => QueryResult.ok MemberStatus.creator)
            HttpResult.exn (some m)).1 = RedeemOutcome.delivered m
         ∧ findFile (redeemMongo
            { users := [{ userId := 7, isVerified := true, filesAccessed := 2 }],
              files := [{ fileId := "F0", fileType := "document", fileName := "n0",
                          caption := "c0", shortCode := "abc12345", uploadedBy := 1,
                          downloads := 3 }],
              channels := [{ channelId := "-100", username := "@ch", title := "Ch" }] }
            "bot" 7 "abc12345" (fun _ => QueryResult.ok MemberStatus.creator)
            HttpResult.exn (some m)).2.files "abc12345"
             = some { fileId := "F0", fileType := "document", fileName := "n0",
                      caption := "c0", shortCode := "abc12345", uploadedBy := 1,
                      downloads := 4 }
         ∧ findUser (redeemMongo
            { users := [{ userId := 7, isVerified := true, filesAccessed := 2 }],
              files := [{ fileId := "F0", fileType := "document", fileName := "n0",
                          caption := "c0", shortCode := "abc12345", uploadedBy := 1,
                          downloads := 3 }],
              channels := [{ channelId := "-100", username := "@ch", title := "Ch" }] }
            "bot" 7 "abc12345" (fun _ => QueryResult.ok MemberStatus.creator)
            HttpResult.exn (some m)).2.users 7
             = some { userId := 7, isVerified := true, filesAccessed := 3 }) :=
  c8_send_failure_no_mutation
    { users := [{ userId := 7, isVerified := true, filesAccessed := 2 }],
      files := [{ fileId := "F0", fileType := "document", fileName := "n0",
                  caption := "c0", shortCode := "abc12345", uploadedBy := 1,
                  downloads := 3 }],
      channels := [{ channelId := "-100", username := "@ch", title := "Ch" }] }
    "bot" 7 "abc12345" (fun _ => QueryResult.ok MemberStatus.creator) HttpResult.exn
    { fileId := "F0", fileType := "document", fileName := "n0",
      caption := "c0", shortCode := "abc12345", uploadedBy := 1, downloads := 3 }
    { userId := 7, isVerified := true, filesAccessed := 2 }
    rfl rfl rfl rfl rfl

/-! ## Claim C1 -/

/-- C1, counterexample.  The claim defines passing the subscription gate
as membership in every configured GateChannel.  With one configured
channel whose membership query errors (e.g. the bot was removed from the
channel and `getChatMember` throws), membership is established for no
channel — `specSubscriptionHolds` is false — yet the verified user's
redemption reaches delivery: the erroring query was skipped by
`checkSubscription`. -/
theorem c1_delivery_despite_unconfirmed_membership :
    (redeemMongo
        { users := [{ userId := 7, isVerified := true }],
          files := [{ fileId := "F0", fileType := "document", fileName := "n0",
                      caption := "c0", shortCode := "abc12345", uploadedBy := 1 }],
          channels := [{ channelId := "-100", username := "@ch", title := "Ch" }] }
        "bot" 7 "abc12345" (fun _ => QueryResult.err) HttpResult.exn (some 1)).1
      = RedeemOutcome.delivered 1
    ∧ specSubscriptionHolds (fun _ => QueryResult.err)
        [{ channelId := "-100", username := "@ch", title := "Ch" }] = false :=
  ⟨rfl, rfl⟩

/-- C1, amended.  A file is delivered only if the verification gate holds
(the found user's persisted verified flag is true), the user is not
banned, and `checkSubscription` passed — where `checkSubscription`
treats a failed/erroring membership query as satisfied, so membership is
guaranteed only for the channels whose query returned a status; it is
not guaranteed for channels whose query errored. -/
theorem c1_delivery_requires_gates (st : MongoState) (bot : String) (uid : Nat)
    (code : String) (query : GateChannel → QueryResult) (resp : HttpResult)
    (send : Option Nat) (m : Nat) (st' : MongoState)
    (h : redeemMongo st bot uid code query resp send = (RedeemOutcome.delivered m, st')) :
    checkSubscription st.channels query = true
    ∧ ∃ u, findUser (upsertUser st.users uid) uid = some u
        ∧ u.isVerified = true ∧ u.isBanned = false := by
  unfold redeemMongo redeemAfter at h
  dsimp only at h
  cases hf : findFile st.files code with
  | none => rw [hf] at h; simp at h
  | some f =>
    rw [hf] at h
    dsimp only at h
    cases hu : findUser (upsertUser st.users uid) uid with
    | none =>
      rw [hu] at h
      dsimp only at h
      by_cases hcs : checkSubscription st.channels query = false
      · rw [if_pos hcs] at h; simp at h
      · rw [if_neg hcs] at h; simp at h
    | some u =>
      rw [hu] at h
      dsimp only at h
      by_cases hba : u.isBanned = true
      · rw [if_pos hba] at h; simp at h
      · rw [if_neg hba] at h
        by_cases hcs : checkSubscription st.channels query = false
        · rw [if_pos hcs] at h; simp at h
        · rw [if_neg hcs] at h
          by_cases hv : u.isVerified = false
          · rw [if_pos hv] at h; simp at h
          · exact ⟨bool_eq_true_of_ne_false hcs,
              u, rfl, bool_eq_true_of_ne_false hv, bool_eq_false_of_ne_true hba⟩

/-- C1, witness: a delivered redemption by a verified, unbanned member
of the single configured channel. -/
theorem c1_delivery_requires_gates_witness :
    checkSubscription [{ channelId := "-100", username := "@ch", title := "Ch" }]
        (fun _ => QueryResult.ok MemberStatus.member) = true
    ∧ ∃ u, findUser (upsertUser [{ userId := 7, isVerified := true }] 7) 7 = some u
        ∧ u.isVerified = true ∧ u.isBanned = false :=
  c1_delivery_requires_gates
    { users := [{ userId := 7, isVerified := true }],
      files := [{ fileId := "F0", fileType := "document", fileName := "n0",
                  caption := "c0", shortCode := "abc12345", uploadedBy := 1 }],
      channels := [{ channelId := "-100", username := "@ch", title := "Ch" }] }
    "bot" 7 "abc12345" (fun _ => QueryResult.ok MemberStatus.member)
    HttpResult.exn (some 1) 1 _ rfl

/-! ## Claim C10 -/

/-- C10, confirmed.  The upload handler applies no ban, subscription or
verification check: for **every** state — in particular one whose
uploader record is banned and unverified, with no channel joined (the
handler consults no membership oracle at all) — once the code loop
yields a fresh code, the upload is accepted, the new `FileRecord` is
persisted (active, retrievable under the returned code) and the reply
carries the share link built from the code. -/
theorem c10_upload_ungated (st : MongoState) (bot : String) (uid : Nat)
    (fid ft fn cap : String) (sz : Nat) (draws : Nat → String) (fuel : Nat)
    (code : String)
    (hg : genLoop st.files draws 0 fuel = some code) :
    ∃ st', uploadMongo st bot uid fid ft fn cap sz draws fuel
          = some ({ shortCode := code, shareLink := deepLink bot code }, st')
      ∧ findFile st'.files code
          = some { fileId := fid, fileType := ft, fileName := fn, caption := cap,
                   shortCode := code, uploadedBy := uid, fileSize := sz } := by
  have hfresh : ∀ f ∈ st.files, f.shortCode ≠ code := genLoop_fresh fuel 0 code hg
  have hnone : findFile st.files code = none :=
    findFile_eq_none (fun f hf hc => absurd hc (hfresh f hf))
  refine ⟨{ st with
             files := st.files ++
               [{ fileId := fid, fileType := ft, fileName := fn, caption := cap,
                  shortCode := code, uploadedBy := uid, fileSize := sz }],
             users := incFilesShared st.users uid }, ?_, ?_⟩
  · unfold uploadMongo
    rw [hg]
  · show findFile (st.files ++
        [{ fileId := fid, fileType := ft, fileName := fn, caption := cap,
           shortCode := code, uploadedBy := uid, fileSize := sz }]) code
      = some { fileId := fid, fileType := ft, fileName := fn, caption := cap,
               shortCode := code, uploadedBy := uid, fileSize := sz }
    rw [findFile_append_of_none _ hnone]
    simp [findFile]

/-- C10, witness: a banned, unverified uploader who joined no channel
still gets their file stored and a share link back. -/
theorem c10_upload_ungated_witness :
    ∃ st', uploadMongo
          { users := [{ userId := 7, isBanned := true }], files := [],
            channels := [{ channelId := "-100", username := "@ch", title := "Ch" }] }
          "bot" 7 "F1" "video" "n1" "c1" 5 (fun _ => "zzz22222") 1
        = some ({ shortCode := "zzz22222", shareLink := deepLink "bot" "zzz22222" }, st')
      ∧ findFile st'.files "zzz22222"
          = some { fileId := "F1", fileType := "video", fileName := "n1",
                   caption := "c1", shortCode := "zzz22222", uploadedBy := 7,
                   fileSize := 5 } :=
  c10_upload_ungated
    { users := [{ userId := 7, isBanned := true }], files := [],
      channels := [{ channelId := "-100", username := "@ch", title := "Ch" }] }
    "bot" 7 "F1" "video" "n1" "c1" 5 (fun _ => "zzz22222") 1 "zzz22222" rfl

end FileStore
